import Mathlib

/-!
# Verification of the Redshift Lakeflow connector core

Shallow embedding of `src/sources/redshift/redshift.py` (class `LakeflowConnect`):
the value decoder (`_extract_value`), the type mapper
(`_map_redshift_type_to_spark`), table-name parsing (`_parse_table_name`), the
poll loop (`_wait_for_statement`), the result paginators
(`_get_statement_results` and the `record_generator` closure of `read_table`),
and the catalog/read operations (`get_table_schema`, `read_table_metadata`,
`read_table`).

The remote Redshift Data API is modelled by explicit response data passed as
arguments: a describe-status sequence for the poll loop, and a list of result
pages for the paginators.  Python `dict` field records from the wire are
modelled by `FieldData` (each wire key an `Option`), and Python's dynamic
values by the `Value` inductive; Python truthiness is modelled explicitly
where the source relies on it (`if not next_token`, `if is_nullable_str`,
`if limit`).
-/

set_option autoImplicit false
set_option linter.unusedVariables false
set_option maxRecDepth 8000

namespace Redshift

/-- A decoded scalar value, the result type of `_extract_value`.  Python's
`None` is `vnull`; doubles are modelled as rationals (the decoder only passes
them through, no arithmetic is performed); `blobValue` bytes are a byte list. -/
inductive Value where
  | vnull
  | vbool (b : Bool)
  | vlong (n : Int)
  | vdouble (q : Rat)
  | vstring (s : String)
  | vblob (bytes : List Nat)
  deriving Repr, DecidableEq

/-- A wire field value from the Data API: a record with at most the keys
`isNull`, `booleanValue`, `longValue`, `doubleValue`, `stringValue`,
`blobValue`; an absent key is `none`. -/
structure FieldData where
  isNull : Option Bool := none
  booleanValue : Option Bool := none
  longValue : Option Int := none
  doubleValue : Option Rat := none
  stringValue : Option String := none
  blobValue : Option (List Nat) := none
  deriving Repr, DecidableEq

/-- `_extract_value` (redshift.py lines 275-298): decode a wire field by fixed
priority.  `field_data.get("isNull", False)` is `isNull.getD false`. -/
def extract_value (field_data : FieldData) : Value :=
  if field_data.isNull.getD false then .vnull
  else match field_data.booleanValue with
    | some b => .vbool b
    | none => match field_data.longValue with
      | some n => .vlong n
      | none => match field_data.doubleValue with
        | some q => .vdouble q
        | none => match field_data.stringValue with
          | some s => .vstring s
          | none => match field_data.blobValue with
            | some bs => .vblob bs
            | none => .vnull

/-- Python truthiness of a decoded value (`if col_name:`, `if is_nullable_str`):
`None`, `False`, `0`, `0.0`, `""` and `b""` are falsy. -/
def truthy : Value → Bool
  | .vnull => false
  | .vbool b => b
  | .vlong n => decide (n ≠ 0)
  | .vdouble q => decide (q ≠ 0)
  | .vstring s => !s.isEmpty
  | .vblob bs => !bs.isEmpty

/-- Spark data types used by the connector (pyspark.sql.types constructors that
`_map_redshift_type_to_spark` can return). -/
inductive SparkType where
  | StringType
  | LongType
  | FloatType
  | DoubleType
  | BooleanType
  | DateType
  | TimestampType
  | DecimalType (precision : Int) (scale : Int)
  | BinaryType
  deriving Repr, DecidableEq

/-- Body of `_map_redshift_type_to_spark` after the lowercase normalization
(redshift.py lines 336-402): the if/elif chain on the lowered type name. -/
def map_redshift_type_lower (t : String)
    (precision scale char_max_length : Option Int) : SparkType :=
  if t ∈ ["smallint", "int2"] then .LongType
  else if t ∈ ["integer", "int", "int4"] then .LongType
  else if t ∈ ["bigint", "int8"] then .LongType
  else if t ∈ ["numeric", "decimal"] then
    .DecimalType (precision.getD 18) (scale.getD 0)
  else if t ∈ ["real", "float4"] then .FloatType
  else if t ∈ ["double precision", "float8", "float"] then .DoubleType
  else if t ∈ ["boolean", "bool"] then .BooleanType
  else if t ∈ ["character", "char", "bpchar"] then .StringType
  else if t ∈ ["character varying", "varchar"] then .StringType
  else if t = "text" then .StringType
  else if t = "date" then .DateType
  else if t ∈ ["timestamp", "timestamp without time zone"] then .TimestampType
  else if t ∈ ["timestamptz", "timestamp with time zone"] then .TimestampType
  else if t ∈ ["time", "time without time zone", "timetz", "time with time zone"] then
    .StringType
  else if t = "interval" then .StringType
  else if t = "varbyte" then .BinaryType
  else if t = "super" then .StringType
  else if t ∈ ["geometry", "geography"] then .StringType
  else if t = "hllsketch" then .StringType
  else .StringType

/-- Python `redshift_type.lower()`: lowercase each character (ASCII case
mapping, which covers every recognized type name). -/
def pyLower (s : String) : String := ⟨s.data.map Char.toLower⟩

/-- `_map_redshift_type_to_spark` (redshift.py lines 316-402).
`char_max_length` is accepted but, as in the source, never used by any branch. -/
def map_redshift_type_to_spark (redshift_type : String)
    (precision : Option Int := none) (scale : Option Int := none)
    (char_max_length : Option Int := none) : SparkType :=
  map_redshift_type_lower (pyLower redshift_type) precision scale char_max_length

/-- Every type name recognized by some branch of `_map_redshift_type_to_spark`
(lowercased); all others fall through to the `StringType` default. -/
def recognizedTypeNames : List String :=
  ["smallint", "int2", "integer", "int", "int4", "bigint", "int8",
   "numeric", "decimal", "real", "float4", "double precision", "float8", "float",
   "boolean", "bool", "character", "char", "bpchar", "character varying", "varchar",
   "text", "date", "timestamp", "timestamp without time zone",
   "timestamptz", "timestamp with time zone",
   "time", "time without time zone", "timetz", "time with time zone",
   "interval", "varbyte", "super", "geometry", "geography", "hllsketch"]

/-- Split a character list at the first occurrence of `sep`; `none` when the
separator does not occur. -/
def split_on_first (sep : Char) : List Char → Option (List Char × List Char)
  | [] => none
  | c :: rest =>
    if c = sep then some ([], rest)
    else (split_on_first sep rest).map (fun p => (c :: p.1, p.2))

/-- `_parse_table_name` (redshift.py lines 300-314): Python
`table_name.split(".", 1)` — split at the first dot only; a name without a
dot defaults to schema `"public"`. -/
def parse_table_name (table_name : String) : String × String :=
  match split_on_first '.' table_name.data with
  | none => ("public", table_name)
  | some p => (⟨p.1⟩, ⟨p.2⟩)

/-! ## Poll loop (`_wait_for_statement`) -/

/-- A `describe_statement` response: the `Status` string and the optional
`Error` message. -/
structure DescribeResponse where
  Status : String
  Error : Option String := none
  deriving Repr, DecidableEq

/-- Outcome of the poll loop.  `polls` counts `describe_statement` calls made,
terminal call included.  The four failure constructors correspond to the
`RuntimeError`s raised by the source: statement failed, statement aborted,
timeout after the full attempt budget, and a `ClientError` from
`describe_statement` (re-raised immediately, never retried). -/
inductive PollResult where
  | finished (response : DescribeResponse) (polls : Nat)
  | statementFailed (reason : String) (polls : Nat)
  | statementAborted (polls : Nat)
  | statementTimeout (attempts : Nat)
  | describeError (msg : String) (polls : Nat)
  deriving Repr, DecidableEq

/-- Loop body of `_wait_for_statement` (redshift.py lines 172-189), fueled by
the remaining attempts; `attempt` is the current index of the Python
`for attempt in range(self.max_poll_attempts)` loop.  `describe` models the
remote `describe_statement` for this statement id at each attempt; a
`ClientError` from it is the `Except.error` case.  On a non-terminal status
the source sleeps `poll_interval` seconds and retries; the sleep has no
observable effect beyond real time, so it is not modelled. -/
def wait_go (describe : Nat → Except String DescribeResponse)
    (max_poll_attempts : Nat) : Nat → Nat → PollResult
  | _, 0 => .statementTimeout max_poll_attempts
  | attempt, fuel + 1 =>
    match describe attempt with
    | .error e => .describeError ("Failed to describe statement: " ++ e) (attempt + 1)
    | .ok response =>
      if response.Status = "FINISHED" then .finished response (attempt + 1)
      else if response.Status = "FAILED" then
        .statementFailed (response.Error.getD "Unknown error") (attempt + 1)
      else if response.Status = "ABORTED" then .statementAborted (attempt + 1)
      else wait_go describe max_poll_attempts (attempt + 1) fuel

/-- `_wait_for_statement` (redshift.py lines 159-193): poll until a terminal
status or until `max_poll_attempts` attempts are exhausted. -/
def wait_for_statement (describe : Nat → Except String DescribeResponse)
    (max_poll_attempts : Nat) : PollResult :=
  wait_go describe max_poll_attempts 0 max_poll_attempts

/-- Default of `options.get("max_poll_attempts", "300")`. -/
def defaultMaxPollAttempts : Nat := 300

/-- Default of `options.get("poll_interval", "2")`. -/
def defaultPollInterval : Nat := 2

/-- Number of `describe_statement` calls recorded in a poll outcome. -/
def PollResult.pollCount : PollResult → Nat
  | .finished _ p => p
  | .statementFailed _ p => p
  | .statementAborted p => p
  | .statementTimeout a => a
  | .describeError _ p => p

/-! ## Result pagination -/

/-- A `get_statement_result` response page: the records (each a list of wire
field values), the optional continuation token, and the column metadata names
(present on the first page; `response.get("ColumnMetadata", [])`). -/
structure ResultPage where
  Records : List (List FieldData) := []
  NextToken : Option String := none
  ColumnMetadata : List String := []
  deriving Repr, DecidableEq

/-- Python truthiness of `response.get("NextToken")` (`if not next_token:
break`): an absent token and an empty-string token both end the loop. -/
def tokenPresent : Option String → Bool
  | none => false
  | some s => !s.isEmpty

/-- Outcome of the eager paginator.  `fetches` counts `get_statement_result`
calls.  `noResponse` marks the out-of-model case in which the loop would issue
one more fetch than the supplied response list covers. -/
inductive FetchOutcome where
  | ok (records : List (List FieldData)) (fetches : Nat)
  | fetchError (msg : String) (fetches : Nat)
  | noResponse (records : List (List FieldData))
  deriving Repr, DecidableEq

/-- Loop of `_get_statement_results` (redshift.py lines 205-224): the i-th
element of `responses` is what the remote returns to the i-th
`get_statement_result` call (the first call passes no token; later calls pass
the last-seen token, which — the remote being keyed by statement id and
cursor — determines the next page).  A `ClientError` raises immediately,
discarding the accumulated records. -/
def fetch_go : List (Except String ResultPage) → List (List FieldData) → Nat →
    FetchOutcome
  | [], records, _ => .noResponse records
  | resp :: rest, records, fetches =>
    match resp with
    | .error e => .fetchError ("Failed to get statement results: " ++ e) (fetches + 1)
    | .ok page =>
      let records := records ++ page.Records
      if tokenPresent page.NextToken then fetch_go rest records (fetches + 1)
      else .ok records (fetches + 1)

/-- `_get_statement_results` (redshift.py lines 195-224). -/
def get_statement_results (responses : List (Except String ResultPage)) :
    FetchOutcome :=
  fetch_go responses [] 0

/-! ## Record conversion (`record_generator` body) -/

/-- Python `dict` over string keys, as an insertion-ordered association list. -/
abbrev PyDict := List (String × Value)

/-- Python `record_dict[col_name] = value`: overwrite in place if the key
exists, else append. -/
def dictInsert (d : PyDict) (k : String) (v : Value) : PyDict :=
  if d.any (fun p => p.1 = k) then
    d.map (fun p => if p.1 = k then (k, v) else p)
  else d ++ [(k, v)]

/-- Inner loop of `record_generator` (redshift.py lines 612-617): enumerate the
raw fields, keeping only indices below the known column-name count. -/
def convert_record_go (column_names : List String) :
    Nat → List FieldData → PyDict → PyDict
  | _, [], d => d
  | idx, field_data :: rest, d =>
    let d := if idx < column_names.length then
        dictInsert d (column_names.getD idx "") (extract_value field_data)
      else d
    convert_record_go column_names (idx + 1) rest d

/-- Convert one raw record (list of wire fields) to a `Record` dict keyed by
column name. -/
def convert_record (column_names : List String) (record : List FieldData) :
    PyDict :=
  convert_record_go column_names 0 record []

/-- Outcome of consuming the streaming paginator (`record_generator`) to the
end: the records it yielded, and how it stopped.  A `ClientError` during a page
fetch propagates to the consumer (`fetchError`) after the records already
yielded — the stream is known-incomplete, never silently short.  `noResponse`
is the out-of-model case of exhausting the supplied response list with a
continuation token still pending. -/
inductive StreamOutcome where
  | ok (yielded : List PyDict) (fetches : Nat)
  | fetchError (msg : String) (yielded : List PyDict) (fetches : Nat)
  | noResponse (yielded : List PyDict)
  deriving Repr, DecidableEq

/-- Loop of the `record_generator` closure in `read_table` (redshift.py lines
595-623): fetch a page (re-raising a `ClientError`), yield each record
converted to a dict, then follow the continuation token until a response omits
it. -/
def record_generator_go (column_names : List String) :
    List (Except String ResultPage) → List PyDict → Nat → StreamOutcome
  | [], yielded, _ => .noResponse yielded
  | resp :: rest, yielded, fetches =>
    match resp with
    | .error e =>
      .fetchError ("Failed to get statement results: " ++ e) yielded (fetches + 1)
    | .ok page =>
      let yielded := yielded ++ page.Records.map (convert_record column_names)
      if tokenPresent page.NextToken then
        record_generator_go column_names rest yielded (fetches + 1)
      else .ok yielded (fetches + 1)

/-- The `record_generator` of `read_table`, run to exhaustion. -/
def record_generator (column_names : List String)
    (responses : List (Except String ResultPage)) : StreamOutcome :=
  record_generator_go column_names responses [] 0

/-! ## Python `int(...)` and query building -/

/-- Digit run of a Python integer literal: decimal digits with single
underscores allowed strictly between digits (`int("1_0") = 10`,
`int("1__0")` and `int("1_")` raise). -/
def parse_digits_go : List Char → Nat → Option Nat
  | [], acc => some acc
  | '_' :: c :: rest, acc =>
    if c.isDigit then parse_digits_go (c :: rest) acc else none
  | ['_'], _ => none
  | c :: rest, acc =>
    if c.isDigit then parse_digits_go rest (acc * 10 + (c.toNat - '0'.toNat))
    else none

/-- A nonempty digit run not starting with an underscore. -/
def parse_digits (cs : List Char) : Option Nat :=
  match cs with
  | [] => none
  | c :: _ => if c.isDigit then parse_digits_go cs 0 else none

/-- Python `s.strip()` as `int(...)` performs it: drop whitespace from both
ends (ASCII whitespace; the extra Unicode spaces Python also strips do not
appear in connector options). -/
def pyStrip (s : String) : String :=
  ⟨((s.data.dropWhile Char.isWhitespace).reverse.dropWhile
      Char.isWhitespace).reverse⟩

/-- Python `int(s)` for a string argument: strip surrounding whitespace, an
optional sign, then a digit run; `none` models the `ValueError`.  (ASCII
decimal digits and whitespace; the exotic Unicode forms Python also accepts do
not appear in connector options.) -/
def pyInt (s : String) : Option Int :=
  match (pyStrip s).toList with
  | '+' :: rest => (parse_digits rest).map Int.ofNat
  | '-' :: rest => (parse_digits rest).map (fun n => -(n : Int))
  | cs => (parse_digits cs).map Int.ofNat

/-- Python truthiness of `table_options.get(key)` (an `Option String`):
absent and empty-string values are falsy. -/
def optTruthy : Option String → Bool
  | none => false
  | some s => !s.isEmpty

/-- SQL built by `read_table` (redshift.py lines 562-580):
`SELECT * FROM "<schema>"."<table>"`, an optional raw WHERE clause, and an
optional LIMIT whose value must survive `int(limit)` — a non-parsing limit is
silently ignored (`except ValueError: pass`). -/
def build_query (schema_name table : String)
    (where_clause limit : Option String) : String :=
  let sql := "SELECT * FROM \x22" ++ schema_name ++ "\x22.\x22" ++ table ++ "\x22"
  let sql := if optTruthy where_clause then
      sql ++ " WHERE " ++ where_clause.getD ""
    else sql
  if optTruthy limit then
    match pyInt (limit.getD "") with
    | some n => sql ++ " LIMIT " ++ toString n
    | none => sql
  else sql

/-! ## Catalog service and table reader -/

/-- The error outcomes of the catalog/read operations.  `tableNotFound` carries
the message of the `ValueError` raised on validation failure or an empty
information-schema result; `dynamicTypeError` marks the out-of-model case of a
Python dynamic-type fault (e.g. `data_type.lower()` on a non-string, or
indexing a too-short record). -/
inductive RsError where
  | tableNotFound (msg : String)
  | statementFailed (reason : String)
  | statementAborted
  | statementTimeout (attempts : Nat)
  | resultFetchError (msg : String)
  | describeError (msg : String)
  | noResponse
  | dynamicTypeError
  deriving Repr, DecidableEq

/-- The `ValueError` message of the table-existence check shared by
`get_table_schema`, `read_table_metadata` and `read_table` (redshift.py lines
420-425, 490-495, 555-560).  The Python conditional expression binds the whole
implicitly-concatenated f-string pair as its then-branch, so the else branch
(at most 10 tables) omits the `"Table '...' is not supported. "` prefix. -/
def tableNotFoundMsg (table_name : String) (available_tables : List String) :
    String :=
  if available_tables.length > 10 then
    "Table '" ++ table_name ++ "' is not supported. Available tables: " ++
      String.intercalate ", " (available_tables.take 10) ++ "..."
  else
    "Available tables: " ++ String.intercalate ", " available_tables

/-- A `pyspark.sql.types.StructField` as built by `get_table_schema`: the name
is whatever `_extract_value` produced for the `column_name` cell. -/
structure StructFieldM where
  name : Value
  dataType : SparkType
  nullable : Bool
  deriving Repr, DecidableEq

/-- `is_nullable_str == "YES" if is_nullable_str else True` (redshift.py line
461): Python `==` between a non-string and `"YES"` is `False`. -/
def compute_nullable (is_nullable_str : Value) : Bool :=
  if truthy is_nullable_str then is_nullable_str = Value.vstring "YES"
  else true

/-- The `data_type` cell is used as a Python string (`redshift_type.lower()`);
a non-string would be a dynamic fault. -/
def asString : Value → Option String
  | .vstring s => some s
  | _ => none

/-- `numeric_precision` / `numeric_scale` / `character_maximum_length` cells:
`information_schema.columns` yields an integer or NULL, and the mapper's
`x if x is not None else d` defaults exactly on NULL. -/
def asOptInt : Value → Option Int
  | .vlong n => some n
  | _ => none

/-- One iteration of the field loop of `get_table_schema` (redshift.py lines
452-468): extract the first six cells of the information-schema row
(`ordinal_position`, the seventh selected column, is never read) and build the
`StructField`.  `none` models a dynamic fault (row shorter than six cells, or
a non-string `data_type`). -/
def schema_field (record : List FieldData) : Option StructFieldM :=
  match record with
  | c0 :: c1 :: c2 :: c3 :: c4 :: c5 :: _ =>
    let col_name := extract_value c0
    let data_type := extract_value c1
    let is_nullable_str := extract_value c2
    let char_max_length := extract_value c3
    let numeric_precision := extract_value c4
    let numeric_scale := extract_value c5
    match asString data_type with
    | none => none
    | some dt =>
      some { name := col_name
             dataType := map_redshift_type_to_spark dt (asOptInt numeric_precision)
               (asOptInt numeric_scale) (asOptInt char_max_length)
             nullable := compute_nullable is_nullable_str }
  | _ => none

/-- `get_table_schema` (redshift.py lines 404-470).  `available_tables` is the
current `list_tables()` result; `rows` is the remote's answer to the
information-schema query for the parsed schema/table, already in
`ORDER BY ordinal_position` order. -/
def get_table_schema (available_tables : List String) (table_name : String)
    (rows : List (List FieldData)) : Except RsError (List StructFieldM) :=
  if table_name ∉ available_tables then
    .error (.tableNotFound (tableNotFoundMsg table_name available_tables))
  else if rows = [] then
    .error (.tableNotFound ("Table '" ++ table_name ++
      "' not found or has no columns in schema '" ++
      (parse_table_name table_name).1 ++ "'"))
  else
    match rows.mapM schema_field with
    | some fields => .ok fields
    | none => .error .dynamicTypeError

/-- Primary-key loop of `read_table_metadata` (redshift.py lines 517-521):
collect the truthy extracted `column_name` cells in order; `none` models the
dynamic fault on an empty record (`record[0]`). -/
def collect_primary_keys : List (List FieldData) → Option (List Value)
  | [] => some []
  | record :: rest =>
    match record with
    | [] => none
    | c0 :: _ =>
      let col_name := extract_value c0
      match collect_primary_keys rest with
      | none => none
      | some pks => some (if truthy col_name then col_name :: pks else pks)

/-- The metadata dict returned by `read_table_metadata`. -/
structure TableMetadata where
  primary_keys : List Value
  ingestion_type : String
  deriving Repr, DecidableEq

/-- `read_table_metadata` (redshift.py lines 472-530).  `pk_rows` is the
remote's answer to the primary-key constraint query, already ordered by
ordinal position; an empty result is valid. -/
def read_table_metadata (available_tables : List String) (table_name : String)
    (pk_rows : List (List FieldData)) : Except RsError TableMetadata :=
  if table_name ∉ available_tables then
    .error (.tableNotFound (tableNotFoundMsg table_name available_tables))
  else
    match collect_primary_keys pk_rows with
    | none => .error .dynamicTypeError
    | some pks => .ok { primary_keys := pks, ingestion_type := "snapshot" }

/-- What `read_table` returns on success: the SQL it built and submitted, the
streaming record generator (already handed the column names of the first
result page), and the final offset dict (always empty: snapshot ingestion). -/
structure ReadTableResult where
  sql : String
  stream : StreamOutcome
  final_offset : PyDict
  deriving Repr, DecidableEq

/-- `read_table` (redshift.py lines 532-626).  `available_tables` is the
current `list_tables()` result; `start_offset` is accepted and never read;
`table_options` is the per-table option dict (`lookup` is `dict.get`);
`describe` and `max_poll_attempts` drive the poll loop on the submitted
statement; `responses` models `get_statement_result` per call index — the
initial metadata call and the generator's first call both pass no token, so
both receive `responses[0]`. -/
def read_table {α : Type} (available_tables : List String) (table_name : String)
    (start_offset : α) (table_options : List (String × String))
    (describe : Nat → Except String DescribeResponse) (max_poll_attempts : Nat)
    (responses : List (Except String ResultPage)) :
    Except RsError ReadTableResult :=
  if table_name ∉ available_tables then
    .error (.tableNotFound (tableNotFoundMsg table_name available_tables))
  else
    let p := parse_table_name table_name
    let sql := build_query p.1 p.2 (table_options.lookup "where_clause")
      (table_options.lookup "limit")
    match wait_for_statement describe max_poll_attempts with
    | .statementFailed reason _ => .error (.statementFailed reason)
    | .statementAborted _ => .error .statementAborted
    | .statementTimeout a => .error (.statementTimeout a)
    | .describeError msg _ => .error (.describeError msg)
    | .finished _ _ =>
      match responses.head? with
      | none => .error .noResponse
      | some (.error e) =>
        .error (.resultFetchError ("Failed to get column metadata: " ++ e))
      | some (.ok first_page) =>
        let column_names := first_page.ColumnMetadata
        .ok { sql := sql
              stream := record_generator column_names responses
              final_offset := [] }

/-- A status on which the poll loop sleeps and retries (anything but the three
terminal statuses checked by `_wait_for_statement`). -/
def nonTerminal (r : DescribeResponse) : Prop :=
  r.Status ≠ "FINISHED" ∧ r.Status ≠ "FAILED" ∧ r.Status ≠ "ABORTED"

instance (r : DescribeResponse) : Decidable (nonTerminal r) := by
  unfold nonTerminal; infer_instance

/-- A well-formed `information_schema.columns` row, as the catalog returns it:
string-valued name/type/nullability cells, integer-or-NULL precision, scale
and length cells, and the (unread) ordinal position. -/
structure InfoColumn where
  column_name : String
  data_type : String
  is_nullable : String
  character_maximum_length : Option Int := none
  numeric_precision : Option Int := none
  numeric_scale : Option Int := none
  ordinal_position : Int := 0
  deriving Repr, DecidableEq

/-- Wire encoding of an integer-or-NULL information-schema cell. -/
def optIntField : Option Int → FieldData
  | some n => { longValue := some n }
  | none => { isNull := some true }

/-- Wire encoding of one information-schema row, in the column order of the
SELECT issued by `get_table_schema`. -/
def infoRow (c : InfoColumn) : List FieldData :=
  [{ stringValue := some c.column_name },
   { stringValue := some c.data_type },
   { stringValue := some c.is_nullable },
   optIntField c.character_maximum_length,
   optIntField c.numeric_precision,
   optIntField c.numeric_scale,
   { longValue := some c.ordinal_position }]

/-- The `StructField` that `get_table_schema` builds from a well-formed row
whose `is_nullable` is `YES` or `NO`. -/
def expectedField (c : InfoColumn) : StructFieldM :=
  { name := .vstring c.column_name
    dataType := map_redshift_type_to_spark c.data_type c.numeric_precision
      c.numeric_scale c.character_maximum_length
    nullable := decide (c.is_nullable = "YES") }

/-- Concrete result page used by the C8 witness: two raw records, one with an
extra field beyond the two known column names. -/
def read_table_witness_page : ResultPage :=
  { Records := [[{ longValue := some 1 }, { stringValue := some "x" },
      { stringValue := some "dropped" }], [{ longValue := some 2 }]],
    ColumnMetadata := ["id", "name"] }

/-! ## Theorems -/

/-- C3: `_extract_value` decodes a wire field by the fixed priority order:
`isNull` true gives null regardless of the other fields; otherwise the first
present variant among boolean, long, double, string, blob is returned
unchanged; with no recognized variant the result is null.  Consequently a
field with exactly one non-null variant set decodes to that variant's value
unchanged (instances of the priority clauses with the earlier variants
absent). -/
theorem extract_value_spec :
    (∀ f : FieldData, f.isNull.getD false = true → extract_value f = .vnull) ∧
    (∀ (f : FieldData) (b : Bool), f.isNull.getD false = false →
      f.booleanValue = some b → extract_value f = .vbool b) ∧
    (∀ (f : FieldData) (n : Int), f.isNull.getD false = false →
      f.booleanValue = none → f.longValue = some n →
      extract_value f = .vlong n) ∧
    (∀ (f : FieldData) (q : Rat), f.isNull.getD false = false →
      f.booleanValue = none → f.longValue = none → f.doubleValue = some q →
      extract_value f = .vdouble q) ∧
    (∀ (f : FieldData) (s : String), f.isNull.getD false = false →
      f.booleanValue = none → f.longValue = none → f.doubleValue = none →
      f.stringValue = some s → extract_value f = .vstring s) ∧
    (∀ (f : FieldData) (bs : List Nat), f.isNull.getD false = false →
      f.booleanValue = none → f.longValue = none → f.doubleValue = none →
      f.stringValue = none → f.blobValue = some bs →
      extract_value f = .vblob bs) ∧
    (∀ f : FieldData, f.isNull.getD false = false →
      f.booleanValue = none → f.longValue = none → f.doubleValue = none →
      f.stringValue = none → f.blobValue = none → extract_value f = .vnull) :=
  ⟨fun f h => by simp [extract_value, h],
   fun f b h hb => by simp [extract_value, h, hb],
   fun f n h hb hl => by simp [extract_value, h, hb, hl],
   fun f q h hb hl hd => by simp [extract_value, h, hb, hl, hd],
   fun f s h hb hl hd hs => by simp [extract_value, h, hb, hl, hd, hs],
   fun f bs h hb hl hd hs hbl => by simp [extract_value, h, hb, hl, hd, hs, hbl],
   fun f h hb hl hd hs hbl => by simp [extract_value, h, hb, hl, hd, hs, hbl]⟩

/-- Witness for C3: the priority clauses evaluated at concrete single-variant
fields, and an `isNull` field that also carries a string. -/
theorem extract_value_spec_witness :
    extract_value { isNull := some true, stringValue := some "x" } = .vnull ∧
    extract_value { booleanValue := some true } = .vbool true ∧
    extract_value { longValue := some 7 } = .vlong 7 ∧
    extract_value { stringValue := some "abc" } = .vstring "abc" ∧
    extract_value {} = .vnull :=
  ⟨extract_value_spec.1 _ (by decide),
   extract_value_spec.2.1 _ true (by decide) (by decide),
   extract_value_spec.2.2.1 _ 7 (by decide) (by decide) (by decide),
   extract_value_spec.2.2.2.2.1 _ "abc" (by decide) (by decide) (by decide)
     (by decide) (by decide),
   extract_value_spec.2.2.2.2.2.2 _ (by decide) (by decide) (by decide)
     (by decide) (by decide) (by decide)⟩

/-- C10: the nullability conversion of `get_table_schema`
(`is_nullable_str == "YES" if is_nullable_str else True`): a null or
empty-string `is_nullable` cell defaults to nullable; nullable is `false`
exactly for a non-empty string other than `"YES"`. -/
theorem nullable_default_spec :
    compute_nullable .vnull = true ∧
    compute_nullable (.vstring "") = true ∧
    ∀ s : String,
      (compute_nullable (.vstring s) = false ↔ s ≠ "" ∧ s ≠ "YES") := by
  refine ⟨rfl, by decide, fun s => ?_⟩
  by_cases h : s = ""
  · subst h; decide
  · have hne : s.isEmpty = false := by
      rw [Bool.eq_false_iff]
      intro hemp
      exact h ((String.isEmpty_iff s).mp hemp)
    simp [compute_nullable, truthy, hne, h]

/-- Witness for C10: `"NO"` gives nullable `false`, `"YES"` and `""` give
`true`. -/
theorem nullable_default_spec_witness :
    compute_nullable (.vstring "NO") = false ∧
    compute_nullable (.vstring "YES") = true ∧
    compute_nullable (.vstring "") = true :=
  ⟨(nullable_default_spec.2.2 "NO").mpr ⟨by decide, by decide⟩,
   by
    have h := (nullable_default_spec.2.2 "YES").not
    simp only [compute_nullable, truthy] at *
    decide,
   nullable_default_spec.2.1⟩

/-- Polling through `k` consecutive non-terminal statuses advances the loop by
`k` attempts. -/
lemma wait_go_skip (st : Nat → DescribeResponse) (m : Nat) :
    ∀ (k a f : Nat), (∀ j, j < k → nonTerminal (st (a + j))) →
      wait_go (fun n => .ok (st n)) m a (k + f) =
      wait_go (fun n => .ok (st n)) m (a + k) f := by
  intro k
  induction k with
  | zero => intro a f h; simp
  | succ k ih =>
    intro a f h
    have h0 : nonTerminal (st a) := by simpa using h 0 (Nat.succ_pos k)
    obtain ⟨hf, hfl, hab⟩ := h0
    have hstep : k + 1 + f = (k + f) + 1 := by omega
    rw [hstep, wait_go]
    simp only [hf, hfl, hab, if_false]
    have := ih (a + 1) f (fun j hj => by
      have := h (j + 1) (by omega)
      simpa [Nat.add_assoc, Nat.add_comm 1 j] using this)
    simpa [Nat.add_assoc, Nat.add_comm 1 k] using this

/-- The poll loop never records more describe calls than the attempt budget. -/
lemma wait_go_pollCount (d : Nat → Except String DescribeResponse) (m : Nat) :
    ∀ (f a : Nat), a + f ≤ m → (wait_go d m a f).pollCount ≤ m := by
  intro f
  induction f with
  | zero => intro a h; simp [wait_go, PollResult.pollCount]
  | succ f ih =>
    intro a h
    rw [wait_go]
    cases d a with
    | error e => dsimp only; simp [PollResult.pollCount]; omega
    | ok r =>
      dsimp only
      split_ifs <;> simp [PollResult.pollCount] <;>
        first | omega | exact ih (a + 1) (by omega)

/-- Counterexample to C1 as stated: on a `FAILED` status with no remote error
message, the reason carried by the failure is the source's literal default
`"Unknown error"` (`response.get("Error", "Unknown error")`), not `"unknown"`. -/
theorem failed_default_reason_counterexample :
    wait_for_statement (fun _ => .ok ⟨"FAILED", none⟩) defaultMaxPollAttempts =
      .statementFailed "Unknown error" 1 ∧ "Unknown error" ≠ "unknown" :=
  ⟨rfl, by decide⟩

/-- C1 (amended: the fallback reason is `"Unknown error"`, not `"unknown"`):
for every status sequence, the poll loop returns the describe response on the
first `FINISHED`, fails with the remote error message (default
`"Unknown error"`) on `FAILED`, fails on `ABORTED`, retries on any other
status, times out with the attempt count after `max_poll_attempts` (default
300) non-terminal polls, and never makes more describe calls than the budget;
in particular `[SUBMITTED, RUNNING, FINISHED]` succeeds after exactly 3 polls
and all-`RUNNING` times out at the default budget. -/
theorem wait_for_statement_spec :
    (∀ (st : Nat → DescribeResponse) (m i : Nat),
      i < m → (∀ j, j < i → nonTerminal (st j)) →
      (((st i).Status = "FINISHED" →
          wait_for_statement (fun n => .ok (st n)) m = .finished (st i) (i + 1)) ∧
       ((st i).Status = "FAILED" →
          wait_for_statement (fun n => .ok (st n)) m =
            .statementFailed ((st i).Error.getD "Unknown error") (i + 1)) ∧
       ((st i).Status = "ABORTED" →
          wait_for_statement (fun n => .ok (st n)) m =
            .statementAborted (i + 1)))) ∧
    (∀ (st : Nat → DescribeResponse) (m : Nat),
      (∀ j, j < m → nonTerminal (st j)) →
      wait_for_statement (fun n => .ok (st n)) m = .statementTimeout m) ∧
    (∀ (d : Nat → Except String DescribeResponse) (m : Nat),
      (wait_for_statement d m).pollCount ≤ m) ∧
    (wait_for_statement
        (fun i => .ok ⟨["SUBMITTED", "RUNNING", "FINISHED"].getD i "RUNNING", none⟩)
        defaultMaxPollAttempts = .finished ⟨"FINISHED", none⟩ 3) ∧
    (wait_for_statement (fun _ => .ok ⟨"RUNNING", none⟩) defaultMaxPollAttempts =
      .statementTimeout defaultMaxPollAttempts) := by
  refine ⟨?_, ?_, ?_, rfl, rfl⟩
  · intro st m i him hpre
    have h1 : wait_for_statement (fun n => .ok (st n)) m =
        wait_go (fun n => .ok (st n)) m i (m - i) := by
      rw [wait_for_statement]
      have hm : i + (m - i) = m := by omega
      calc wait_go (fun n => .ok (st n)) m 0 m
          = wait_go (fun n => .ok (st n)) m 0 (i + (m - i)) :=
            congrArg _ hm.symm
        _ = wait_go (fun n => .ok (st n)) m (0 + i) (m - i) :=
            wait_go_skip st m i 0 (m - i) (fun j hj => by
              simpa using hpre j hj)
        _ = wait_go (fun n => .ok (st n)) m i (m - i) := by rw [Nat.zero_add]
    obtain ⟨f', hf⟩ : ∃ f', m - i = f' + 1 := ⟨m - i - 1, by omega⟩
    rw [h1, hf, wait_go]
    dsimp only
    refine ⟨?_, ?_, ?_⟩ <;> intro hs <;> simp [hs]
  · intro st m h
    have h1 : wait_for_statement (fun n => .ok (st n)) m =
        wait_go (fun n => .ok (st n)) m m 0 := by
      rw [wait_for_statement]
      calc wait_go (fun n => .ok (st n)) m 0 m
          = wait_go (fun n => .ok (st n)) m 0 (m + 0) := congrArg _ rfl
        _ = wait_go (fun n => .ok (st n)) m (0 + m) 0 :=
            wait_go_skip st m m 0 0 (fun j hj => by simpa using h j hj)
        _ = wait_go (fun n => .ok (st n)) m m 0 := by rw [Nat.zero_add]
    rw [h1, wait_go]
  · intro d m
    exact wait_go_pollCount d m m 0 (by omega)

/-- Witness for C1: a sequence reaching `ABORTED` on the third poll aborts
with 3 polls recorded, and an immediate `FAILED` with a message carries that
message. -/
theorem wait_for_statement_spec_witness :
    wait_for_statement
        (fun k => .ok ⟨["SUBMITTED", "RUNNING", "ABORTED"].getD k "RUNNING", none⟩) 5 =
      .statementAborted 3 ∧
    wait_for_statement (fun _ => .ok ⟨"FAILED", some "boom"⟩) 5 =
      .statementFailed "boom" 1 :=
  ⟨(wait_for_statement_spec.1
      (fun k => ⟨["SUBMITTED", "RUNNING", "ABORTED"].getD k "RUNNING", none⟩)
      5 2 (by decide) (by decide)).2.2 (by decide),
   (wait_for_statement_spec.1 (fun _ => ⟨"FAILED", some "boom"⟩)
      5 0 (by decide) (by decide)).2.1 (by decide)⟩

/-- C4: `_map_redshift_type_to_spark` is total (a Lean function) and depends
on the type name only through its lowercasing, so any capitalization maps
alike; every documented native name maps to the documented normalized type
(decimal taking precision/scale with defaults 18 and 0); and every name not
recognized by any branch defaults to string. -/
theorem map_redshift_type_spec :
    (∀ (s t : String) (p sc l : Option Int), pyLower s = pyLower t →
      map_redshift_type_to_spark s p sc l = map_redshift_type_to_spark t p sc l) ∧
    (∀ p sc l : Option Int,
      map_redshift_type_to_spark "smallint" p sc l = .LongType ∧
      map_redshift_type_to_spark "int2" p sc l = .LongType ∧
      map_redshift_type_to_spark "integer" p sc l = .LongType ∧
      map_redshift_type_to_spark "int" p sc l = .LongType ∧
      map_redshift_type_to_spark "int4" p sc l = .LongType ∧
      map_redshift_type_to_spark "bigint" p sc l = .LongType ∧
      map_redshift_type_to_spark "int8" p sc l = .LongType ∧
      map_redshift_type_to_spark "numeric" p sc l =
        .DecimalType (p.getD 18) (sc.getD 0) ∧
      map_redshift_type_to_spark "decimal" p sc l =
        .DecimalType (p.getD 18) (sc.getD 0) ∧
      map_redshift_type_to_spark "real" p sc l = .FloatType ∧
      map_redshift_type_to_spark "float4" p sc l = .FloatType ∧
      map_redshift_type_to_spark "double precision" p sc l = .DoubleType ∧
      map_redshift_type_to_spark "float8" p sc l = .DoubleType ∧
      map_redshift_type_to_spark "float" p sc l = .DoubleType ∧
      map_redshift_type_to_spark "boolean" p sc l = .BooleanType ∧
      map_redshift_type_to_spark "bool" p sc l = .BooleanType ∧
      map_redshift_type_to_spark "character" p sc l = .StringType ∧
      map_redshift_type_to_spark "char" p sc l = .StringType ∧
      map_redshift_type_to_spark "bpchar" p sc l = .StringType ∧
      map_redshift_type_to_spark "character varying" p sc l = .StringType ∧
      map_redshift_type_to_spark "varchar" p sc l = .StringType ∧
      map_redshift_type_to_spark "text" p sc l = .StringType ∧
      map_redshift_type_to_spark "date" p sc l = .DateType ∧
      map_redshift_type_to_spark "timestamp" p sc l = .TimestampType ∧
      map_redshift_type_to_spark "timestamp without time zone" p sc l =
        .TimestampType ∧
      map_redshift_type_to_spark "timestamptz" p sc l = .TimestampType ∧
      map_redshift_type_to_spark "timestamp with time zone" p sc l =
        .TimestampType ∧
      map_redshift_type_to_spark "time" p sc l = .StringType ∧
      map_redshift_type_to_spark "time without time zone" p sc l = .StringType ∧
      map_redshift_type_to_spark "timetz" p sc l = .StringType ∧
      map_redshift_type_to_spark "time with time zone" p sc l = .StringType ∧
      map_redshift_type_to_spark "interval" p sc l = .StringType ∧
      map_redshift_type_to_spark "varbyte" p sc l = .BinaryType ∧
      map_redshift_type_to_spark "super" p sc l = .StringType ∧
      map_redshift_type_to_spark "geometry" p sc l = .StringType ∧
      map_redshift_type_to_spark "geography" p sc l = .StringType ∧
      map_redshift_type_to_spark "hllsketch" p sc l = .StringType) ∧
    (∀ (s : String) (p sc l : Option Int), pyLower s ∉ recognizedTypeNames →
      map_redshift_type_to_spark s p sc l = .StringType) := by
  refine ⟨?_, ?_, ?_⟩
  · intro s t p sc l h
    rw [map_redshift_type_to_spark, map_redshift_type_to_spark, h]
  · intro p sc l
    repeat' constructor
  · intro s p sc l h
    simp only [recognizedTypeNames, List.mem_cons, List.not_mem_nil, or_false,
      not_or] at h
    obtain ⟨h1, h2, h3, h4, h5, h6, h7, h8, h9, h10, h11, h12, h13, h14, h15,
      h16, h17, h18, h19, h20, h21, h22, h23, h24, h25, h26, h27, h28, h29,
      h30, h31, h32, h33, h34, h35, h36, h37⟩ := h
    simp only [map_redshift_type_to_spark, map_redshift_type_lower,
      List.mem_cons, List.not_mem_nil, or_false]
    simp only [h1, h2, h3, h4, h5, h6, h7, h8, h9, h10, h11, h12, h13, h14,
      h15, h16, h17, h18, h19, h20, h21, h22, h23, h24, h25, h26, h27, h28,
      h29, h30, h31, h32, h33, h34, h35, h36, h37, if_false, or_self, if_true]

/-- Witness for C4: a capitalized name maps like its lowercase form, and an
unrecognized name falls through to string. -/
theorem map_redshift_type_spec_witness :
    map_redshift_type_to_spark "VarChar" none none (some 50) =
      map_redshift_type_to_spark "varchar" none none (some 50) ∧
    map_redshift_type_to_spark "mystery_type" none none none = .StringType :=
  ⟨map_redshift_type_spec.1 "VarChar" "varchar" none none (some 50) (by decide),
   map_redshift_type_spec.2.2 "mystery_type" none none none (by decide)⟩

/-- Consuming `k` pages that all carry a (truthy) continuation token advances
the eager fetch loop by `k` fetches, appending their records in order. -/
lemma fetch_go_all_tokens :
    ∀ (good : List ResultPage) (rest : List (Except String ResultPage))
      (acc : List (List FieldData)) (n : Nat),
      (∀ p ∈ good, tokenPresent p.NextToken = true) →
      fetch_go (good.map .ok ++ rest) acc n =
      fetch_go rest (acc ++ (good.map ResultPage.Records).flatten) (n + good.length) := by
  intro good
  induction good with
  | nil => intro rest acc n h; simp
  | cons p ps ih =>
    intro rest acc n h
    have hp := h p (List.mem_cons_self p ps)
    simp only [List.map_cons, List.cons_append, fetch_go, hp, if_true, List.append_eq]
    rw [ih rest (acc ++ p.Records) (n + 1)
      (fun q hq => h q (List.mem_cons_of_mem p hq))]
    have hn : n + 1 + ps.length = n + (ps.length + 1) := by omega
    simp [List.append_assoc, hn]

/-- The streaming analogue of `fetch_go_all_tokens` for the `record_generator`
loop, which yields each page's records converted to dicts. -/
lemma gen_go_all_tokens (cols : List String) :
    ∀ (good : List ResultPage) (rest : List (Except String ResultPage))
      (acc : List PyDict) (n : Nat),
      (∀ p ∈ good, tokenPresent p.NextToken = true) →
      record_generator_go cols (good.map .ok ++ rest) acc n =
      record_generator_go cols rest
        (acc ++ (good.map (fun p => p.Records.map (convert_record cols))).flatten)
        (n + good.length) := by
  intro good
  induction good with
  | nil => intro rest acc n h; simp
  | cons p ps ih =>
    intro rest acc n h
    have hp := h p (List.mem_cons_self p ps)
    simp only [List.map_cons, List.cons_append, record_generator_go, hp, if_true,
      List.append_eq]
    rw [ih rest (acc ++ p.Records.map (convert_record cols)) (n + 1)
      (fun q hq => h q (List.mem_cons_of_mem p hq))]
    have hn : n + 1 + ps.length = n + (ps.length + 1) := by omega
    simp [List.append_assoc, hn]
/-- C2: for a remote result made of pages each carrying a continuation cursor
except the last, the eager paginator returns the concatenation of all pages'
records in order and the streaming generator yields their dict conversions in
order, both making exactly one fetch per page (termination exactly at the
cursorless response); a remote error during any page fetch makes the eager
paginator fail with the fetch-error (discarding everything) and makes the
stream propagate the fetch-error to its consumer after the prefix it had
yielded, never ending as a silent success. -/
theorem paginator_spec :
    (∀ (pages : List ResultPage) (hne : pages ≠ []) (cols : List String),
      (∀ p ∈ pages.dropLast, tokenPresent p.NextToken = true) →
      tokenPresent (pages.getLast hne).NextToken = false →
      get_statement_results (pages.map .ok) =
        .ok (pages.map ResultPage.Records).flatten pages.length ∧
      record_generator cols (pages.map .ok) =
        .ok ((pages.map ResultPage.Records).flatten.map (convert_record cols))
          pages.length) ∧
    (∀ (good : List ResultPage) (e : String)
      (rest : List (Except String ResultPage)) (cols : List String),
      (∀ p ∈ good, tokenPresent p.NextToken = true) →
      get_statement_results (good.map .ok ++ .error e :: rest) =
        .fetchError ("Failed to get statement results: " ++ e)
          (good.length + 1) ∧
      record_generator cols (good.map .ok ++ .error e :: rest) =
        .fetchError ("Failed to get statement results: " ++ e)
          ((good.map ResultPage.Records).flatten.map (convert_record cols))
          (good.length + 1)) := by
  constructor
  · intro pages hne cols hdrop hlast
    obtain ⟨init, L, rfl⟩ : ∃ init L, pages = init ++ [L] :=
      ⟨pages.dropLast, pages.getLast hne, (List.dropLast_append_getLast hne).symm⟩
    rw [List.getLast_concat] at hlast
    rw [List.dropLast_concat] at hdrop
    constructor
    · rw [get_statement_results, List.map_append,
        fetch_go_all_tokens init _ [] 0 hdrop]
      simp [fetch_go, hlast, List.flatten_append]
    · rw [record_generator, List.map_append,
        gen_go_all_tokens cols init _ [] 0 hdrop]
      simp [record_generator_go, hlast, List.flatten_append, List.map_flatten,
        Function.comp_def]
  · intro good e rest cols h
    constructor
    · rw [get_statement_results, fetch_go_all_tokens good _ [] 0 h]
      simp [fetch_go]
    · rw [record_generator, gen_go_all_tokens cols good _ [] 0 h]
      simp [record_generator_go, List.map_flatten, Function.comp_def]

/-- Witness for C2: a two-page result is concatenated in order with two
fetches, and an error on the second fetch propagates as a fetch-error after
the first page's yielded record. -/
theorem paginator_spec_witness :
    get_statement_results
        [.ok { Records := [[{ longValue := some 1 }]], NextToken := some "t1" },
         .ok { Records := [[{ longValue := some 2 }]] }] =
      .ok [[{ longValue := some 1 }], [{ longValue := some 2 }]] 2 ∧
    record_generator ["id"]
        [.ok { Records := [[{ longValue := some 1 }]], NextToken := some "t1" },
         .error "boom"] =
      .fetchError "Failed to get statement results: boom"
        [[("id", .vlong 1)]] 2 :=
  ⟨((paginator_spec.1
      [{ Records := [[{ longValue := some 1 }]], NextToken := some "t1" },
       { Records := [[{ longValue := some 2 }]] }]
      (by decide) [] (by decide) (by decide)).1),
   ((paginator_spec.2
      [{ Records := [[{ longValue := some 1 }]], NextToken := some "t1" }]
      "boom" [] ["id"] (by decide)).2)⟩

/-- The empty string does not parse as a Python int. -/
lemma pyInt_empty : pyInt "" = none := by decide

/-- A limit value that does not parse as an integer leaves the query exactly
as if no limit were given (`except ValueError: pass`). -/
lemma build_query_invalid_limit (s t : String) (wc : Option String)
    (lim : String) (h : pyInt lim = none) :
    build_query s t wc (some lim) = build_query s t wc none := by
  simp [build_query, optTruthy, h]

/-- A parsing limit value appends `LIMIT <parsed integer>` to the query. -/
lemma build_query_valid_limit (s t : String) (wc : Option String)
    (lim : String) (n : Int) (h : pyInt lim = some n) :
    build_query s t wc (some lim) =
      build_query s t wc none ++ " LIMIT " ++ toString n := by
  have hne : lim ≠ "" := by
    intro he
    rw [he, pyInt_empty] at h
    exact Option.noConfusion h
  have hne' : lim.isEmpty = false := by
    rw [Bool.eq_false_iff]
    intro he
    exact hne ((String.isEmpty_iff lim).mp he)
  simp [build_query, optTruthy, h, hne']

/-- C9: a `limit` table option that does not parse as a Python integer is
silently ignored — the query built is the one built with no limit at all, and
`read_table` behaves identically to a call without the option (same result,
no failure); a parsing limit extends the query with that `LIMIT`. -/
theorem limit_leniency_spec :
    (∀ (s t : String) (wc : Option String) (lim : String), pyInt lim = none →
      build_query s t wc (some lim) = build_query s t wc none) ∧
    (∀ (s t : String) (wc : Option String) (lim : String) (n : Int),
      pyInt lim = some n →
      build_query s t wc (some lim) =
        build_query s t wc none ++ " LIMIT " ++ toString n) ∧
    (∀ {α : Type} (avail : List String) (name : String) (o : α)
      (opts opts' : List (String × String))
      (d : Nat → Except String DescribeResponse) (m : Nat)
      (resp : List (Except String ResultPage)) (lim : String),
      opts.lookup "where_clause" = opts'.lookup "where_clause" →
      opts.lookup "limit" = some lim → pyInt lim = none →
      opts'.lookup "limit" = none →
      read_table avail name o opts d m resp =
        read_table avail name o opts' d m resp) := by
  refine ⟨build_query_invalid_limit, build_query_valid_limit, ?_⟩
  intro α avail name o opts opts' d m resp lim hw hl hnone hl'
  by_cases hmem : name ∈ avail
  · simp only [read_table, hmem, not_true_eq_false, if_false, hw, hl, hl',
      build_query_invalid_limit _ _ _ _ hnone]
  · simp only [read_table, hmem, not_false_eq_true, if_true]

/-- Witness for C9: `limit="abc"` builds the unlimited query and is ignored by
`read_table`; `limit=" 100 "` appends `LIMIT 100`. -/
theorem limit_leniency_spec_witness :
    build_query "public" "users" none (some "abc") =
      build_query "public" "users" none none ∧
    build_query "public" "users" none (some " 100 ") =
      build_query "public" "users" none none ++ " LIMIT 100" ∧
    read_table ["public.users"] "public.users" (0 : Nat)
        [("limit", "abc")] (fun _ => .ok ⟨"FINISHED", none⟩) 5 [.ok {}] =
      read_table ["public.users"] "public.users" (0 : Nat)
        [] (fun _ => .ok ⟨"FINISHED", none⟩) 5 [.ok {}] :=
  ⟨limit_leniency_spec.1 "public" "users" none "abc" (by decide),
   limit_leniency_spec.2.1 "public" "users" none " 100 " 100 (by decide),
   limit_leniency_spec.2.2 ["public.users"] "public.users" (0 : Nat)
     [("limit", "abc")] [] (fun _ => .ok ⟨"FINISHED", none⟩) 5 [.ok {}] "abc"
     (by decide) (by decide) (by decide) (by decide)⟩

/-- C7: for every name absent from the current `list_tables()` result, all
three of `get_table_schema`, `read_table_metadata` and `read_table` fail with
the table-not-found error carrying the shared message, and that message
surfaces the known tables — all of them when the catalog holds at most 10,
else the first 10 followed by `"..."`. -/
theorem table_not_found_spec :
    (∀ (avail : List String) (name : String)
      (rows pk_rows : List (List FieldData)) {α : Type} (o : α)
      (opts : List (String × String))
      (d : Nat → Except String DescribeResponse) (m : Nat)
      (resp : List (Except String ResultPage)),
      name ∉ avail →
      get_table_schema avail name rows =
        .error (.tableNotFound (tableNotFoundMsg name avail)) ∧
      read_table_metadata avail name pk_rows =
        .error (.tableNotFound (tableNotFoundMsg name avail)) ∧
      read_table avail name o opts d m resp =
        .error (.tableNotFound (tableNotFoundMsg name avail))) ∧
    (∀ (name : String) (avail : List String), avail.length > 10 →
      tableNotFoundMsg name avail =
        "Table '" ++ name ++ "' is not supported. Available tables: " ++
          String.intercalate ", " (avail.take 10) ++ "...") ∧
    (∀ (name : String) (avail : List String), ¬ avail.length > 10 →
      tableNotFoundMsg name avail =
        "Available tables: " ++ String.intercalate ", " avail) := by
  refine ⟨?_, ?_, ?_⟩
  · intro avail name rows pk_rows α o opts d m resp h
    refine ⟨?_, ?_, ?_⟩
    · simp [get_table_schema, h]
    · simp [read_table_metadata, h]
    · simp [read_table, h]
  · intro name avail h
    simp [tableNotFoundMsg, h]
  · intro name avail h
    simp [tableNotFoundMsg, h]

/-- Witness for C7: a two-table catalog's message lists both tables, and an
11-table catalog's message is truncated to the first 10. -/
theorem table_not_found_spec_witness :
    get_table_schema ["public.a", "public.b"] "nope" [] =
      .error (.tableNotFound "Available tables: public.a, public.b") ∧
    read_table ["public.a", "public.b"] "nope" (0 : Nat) []
        (fun _ => .ok ⟨"FINISHED", none⟩) 5 [.ok {}] =
      .error (.tableNotFound "Available tables: public.a, public.b") ∧
    tableNotFoundMsg "nope"
        ["t1", "t2", "t3", "t4", "t5", "t6", "t7", "t8", "t9", "t10", "t11"] =
      "Table 'nope' is not supported. Available tables: " ++
        "t1, t2, t3, t4, t5, t6, t7, t8, t9, t10" ++ "..." :=
  ⟨((table_not_found_spec.1 ["public.a", "public.b"] "nope" [] [] (0 : Nat) []
      (fun _ => .ok ⟨"FINISHED", none⟩) 5 [.ok {}] (by decide)).1),
   ((table_not_found_spec.1 ["public.a", "public.b"] "nope" [] [] (0 : Nat) []
      (fun _ => .ok ⟨"FINISHED", none⟩) 5 [.ok {}] (by decide)).2.2),
   (table_not_found_spec.2.1 "nope"
      ["t1", "t2", "t3", "t4", "t5", "t6", "t7", "t8", "t9", "t10", "t11"]
      (by decide))⟩

/-- C6, evaluated at the failing input: `_parse_table_name` does default a
bare `"users"` to schema `"public"`, but the existence check each operation
runs first compares the raw name against the qualified names from
`list_tables()`, so with catalog `["public.users"]` every operation rejects
the bare `"users"` with table-not-found while accepting `"public.users"` —
contradicting the documented `'schema.table' or just 'table'` contract. -/
theorem bare_table_name_code_bug :
    parse_table_name "users" = ("public", "users") ∧
    get_table_schema ["public.users"] "users"
        [[{ stringValue := some "id" }, { stringValue := some "integer" },
          { stringValue := some "NO" }, { isNull := some true },
          { isNull := some true }, { isNull := some true },
          { longValue := some 1 }]] =
      .error (.tableNotFound "Available tables: public.users") ∧
    get_table_schema ["public.users"] "public.users"
        [[{ stringValue := some "id" }, { stringValue := some "integer" },
          { stringValue := some "NO" }, { isNull := some true },
          { isNull := some true }, { isNull := some true },
          { longValue := some 1 }]] =
      .ok [{ name := .vstring "id", dataType := .LongType, nullable := false }] ∧
    read_table_metadata ["public.users"] "users" [] =
      .error (.tableNotFound "Available tables: public.users") ∧
    read_table_metadata ["public.users"] "public.users" [] =
      .ok { primary_keys := [], ingestion_type := "snapshot" } ∧
    read_table ["public.users"] "users" (0 : Nat) []
        (fun _ => .ok ⟨"FINISHED", none⟩) 5 [.ok {}] =
      .error (.tableNotFound "Available tables: public.users") ∧
    read_table ["public.users"] "public.users" (0 : Nat) []
        (fun _ => .ok ⟨"FINISHED", none⟩) 5 [.ok {}] =
      .ok { sql := "SELECT * FROM \x22public\x22.\x22users\x22",
            stream := .ok [] 1, final_offset := [] } :=
  ⟨rfl, rfl, rfl, rfl, rfl, rfl, rfl⟩

/-- Decoding an integer-or-NULL cell yields exactly the optional integer the
mapper expects (`x if x is not None else default`). -/
lemma asOptInt_optIntField (o : Option Int) :
    asOptInt (extract_value (optIntField o)) = o := by
  cases o <;> rfl

/-- Decoding a plain string cell yields that string. -/
lemma extract_value_string (s : String) :
    extract_value { stringValue := some s } = .vstring s := rfl

/-- On a well-formed information-schema row with `is_nullable` in
`{YES, NO}`, the field loop builds exactly the expected `StructField`. -/
lemma schema_field_infoRow (c : InfoColumn)
    (h : c.is_nullable = "YES" ∨ c.is_nullable = "NO") :
    schema_field (infoRow c) = some (expectedField c) := by
  have hne : c.is_nullable.isEmpty = false := by
    rcases h with h | h <;> rw [h] <;> rfl
  simp [schema_field, infoRow, expectedField, extract_value_string, asString,
    asOptInt_optIntField, compute_nullable, truthy, hne, Value.vstring.injEq]

/-- The field loop over a list of well-formed rows succeeds row by row. -/
lemma mapM_schema_field (cols : List InfoColumn)
    (h : ∀ c ∈ cols, c.is_nullable = "YES" ∨ c.is_nullable = "NO") :
    (cols.map infoRow).mapM schema_field = some (cols.map expectedField) := by
  induction cols with
  | nil => rfl
  | cons c cs ih =>
    simp only [List.map_cons, List.mapM_cons,
      schema_field_infoRow c (h c (List.mem_cons_self c cs)),
      ih (fun x hx => h x (List.mem_cons_of_mem c hx))]
    rfl

/-- C5: for a catalog-listed table whose information-schema rows arrive in
ordinal order (each row well-formed, `is_nullable` being `YES` or `NO` as the
information schema guarantees), `get_table_schema` returns one
(name, type, nullable) field per column in that order, the type produced by
the type mapper from the row's type name, precision, scale and length, and
nullable exactly when `is_nullable = 'YES'`; the documented
`(id integer not null, name varchar(50) nullable)` example returns
`[(id, 64-bit integer, false), (name, string, true)]`; and a zero-column
information-schema result fails with the table-not-found error. -/
theorem get_table_schema_spec :
    (∀ (avail : List String) (name : String) (cols : List InfoColumn),
      name ∈ avail → cols ≠ [] →
      (∀ c ∈ cols, c.is_nullable = "YES" ∨ c.is_nullable = "NO") →
      get_table_schema avail name (cols.map infoRow) =
        .ok (cols.map expectedField)) ∧
    (∀ (avail : List String) (name : String), name ∈ avail →
      get_table_schema avail name [] =
        .error (.tableNotFound ("Table '" ++ name ++
          "' not found or has no columns in schema '" ++
          (parse_table_name name).1 ++ "'"))) ∧
    (get_table_schema ["public.users"] "public.users"
        ([{ column_name := "id", data_type := "integer", is_nullable := "NO",
            numeric_precision := some 32, numeric_scale := some 0,
            ordinal_position := 1 },
          { column_name := "name", data_type := "character varying",
            is_nullable := "YES", character_maximum_length := some 50,
            ordinal_position := 2 }].map infoRow) =
      .ok [{ name := .vstring "id", dataType := .LongType, nullable := false },
           { name := .vstring "name", dataType := .StringType,
             nullable := true }]) := by
  refine ⟨?_, ?_, rfl⟩
  · intro avail name cols hmem hne hyn
    rw [get_table_schema, if_neg (by simpa using hmem),
      if_neg (by simpa [List.map_eq_nil_iff] using hne),
      mapM_schema_field cols hyn]
  · intro avail name hmem
    rw [get_table_schema, if_neg (by simpa using hmem), if_pos rfl]

/-- Witness for C5: a concrete single-column table evaluates to the expected
schema, and an empty information-schema result fails. -/
theorem get_table_schema_spec_witness :
    get_table_schema ["public.users"] "public.users"
        ([{ column_name := "id", data_type := "integer", is_nullable := "NO",
            ordinal_position := 1 }].map infoRow) =
      .ok [{ name := .vstring "id", dataType := .LongType,
             nullable := false }] ∧
    get_table_schema ["public.users"] "public.users" [] =
      .error (.tableNotFound ("Table 'public.users'" ++
        " not found or has no columns in schema 'public'")) :=
  ⟨get_table_schema_spec.1 ["public.users"] "public.users"
      [{ column_name := "id", data_type := "integer", is_nullable := "NO",
         ordinal_position := 1 }] (by decide) (by decide) (by decide),
   get_table_schema_spec.2.1 ["public.users"] "public.users" (by decide)⟩

/-- A complete page sequence (cursor on every page but the last) is streamed
in full: every page's records converted and yielded in order, one fetch per
page. -/
lemma record_generator_complete (cols : List String) (pages : List ResultPage)
    (hne : pages ≠ [])
    (hdrop : ∀ p ∈ pages.dropLast, tokenPresent p.NextToken = true)
    (hlast : tokenPresent (pages.getLast hne).NextToken = false) :
    record_generator cols (pages.map .ok) =
      .ok ((pages.map ResultPage.Records).flatten.map (convert_record cols))
        pages.length := by
  obtain ⟨init, L, rfl⟩ : ∃ init L, pages = init ++ [L] :=
    ⟨pages.dropLast, pages.getLast hne, (List.dropLast_append_getLast hne).symm⟩
  rw [List.getLast_concat] at hlast
  rw [List.dropLast_concat] at hdrop
  rw [record_generator, List.map_append, gen_go_all_tokens cols init _ [] 0 hdrop]
  simp [record_generator_go, hlast, List.flatten_append, List.map_flatten,
    Function.comp_def]

/-- With pairwise-distinct column names, the record-to-dict loop from index
`idx` appends exactly the pairing of the remaining column names with the
decoded fields. -/
lemma convert_go_nodup (cols : List String) (hnd : cols.Nodup) :
    ∀ (rec : List FieldData) (idx : Nat) (d : PyDict),
      (∀ j, idx ≤ j → ∀ hj : j < cols.length, ∀ p ∈ d, p.1 ≠ cols.getD j "") →
      convert_record_go cols idx rec d =
        d ++ (cols.drop idx).zip (rec.map extract_value) := by
  intro rec
  induction rec with
  | nil =>
    intro idx d h
    simp [convert_record_go]
  | cons f rest ih =>
    intro idx d h
    simp only [convert_record_go]
    by_cases hidx : idx < cols.length
    · rw [if_pos hidx]
      have hany : d.any (fun p => p.1 = cols.getD idx "") = false := by
        rw [List.any_eq_false]
        intro p hp
        simpa using h idx le_rfl hidx p hp
      have hnotany : ¬ (d.any (fun p => p.1 = cols.getD idx "") = true) := by
        rw [hany]
        exact Bool.false_ne_true
      have hins : dictInsert d (cols.getD idx "") (extract_value f) =
          d ++ [(cols.getD idx "", extract_value f)] := by
        rw [dictInsert, if_neg hnotany]
      rw [hins, ih (idx + 1) _ ?_]
      · rw [List.drop_eq_getElem_cons hidx, List.map_cons, List.zip_cons_cons,
          List.getD_eq_getElem _ _ hidx, List.append_assoc]
        simp
      · intro j hj hjl p hp
        rcases List.mem_append.mp hp with hp | hp
        · exact h j (by omega) hjl p hp
        · simp only [List.mem_singleton] at hp
          subst hp
          simp only [List.getD_eq_getElem _ _ hidx, List.getD_eq_getElem _ _ hjl]
          intro heq
          have : (⟨idx, hidx⟩ : Fin cols.length) = ⟨j, hjl⟩ :=
            (List.Nodup.get_inj_iff hnd).mp heq
          have : idx = j := congrArg Fin.val this
          omega
    · rw [if_neg hidx]
      rw [ih (idx + 1) d (fun j hj hjl p hp => h j (by omega) hjl p hp)]
      have h1 : cols.drop idx = [] := List.drop_eq_nil_of_le (by omega)
      have h2 : cols.drop (idx + 1) = [] := List.drop_eq_nil_of_le (by omega)
      simp [h1, h2]

/-- With pairwise-distinct column names, a raw record converts to the dict
pairing the i-th column name with the decoded i-th field; extra raw fields
beyond the column names are dropped, and missing positions are absent. -/
lemma convert_record_eq_zip (cols : List String) (hnd : cols.Nodup)
    (rec : List FieldData) :
    convert_record cols rec = cols.zip (rec.map extract_value) := by
  rw [convert_record, convert_go_nodup cols hnd rec 0 []
    (fun j hj hjl p hp => absurd hp (List.not_mem_nil p))]
  simp

/-- C8: for an existing table (columns pairwise distinct on a real table) and
any `start_offset`, `read_table` succeeds with the built query, a final offset
that is the empty map, and a stream yielding one record dict per raw record —
each dict pairing the i-th column name of the first result page's metadata
with the decoded i-th field (extras dropped, missing positions absent, by the
`convert_record`/zip characterization); and the entire result is independent
of `start_offset`, which is never read. -/
theorem read_table_snapshot_spec :
    (∀ {α : Type} (avail : List String) (name : String) (o : α)
       (opts : List (String × String)) (m : Nat)
       (pages : List ResultPage) (hne : pages ≠ []),
      name ∈ avail → 0 < m →
      (∀ p ∈ pages.dropLast, tokenPresent p.NextToken = true) →
      tokenPresent ((pages.getLast hne).NextToken) = false →
      read_table avail name o opts (fun _ => .ok ⟨"FINISHED", none⟩) m
          (pages.map .ok) =
        .ok { sql := build_query (parse_table_name name).1
                (parse_table_name name).2 (opts.lookup "where_clause")
                (opts.lookup "limit")
              stream := .ok ((pages.map ResultPage.Records).flatten.map
                  (convert_record (pages.head hne).ColumnMetadata))
                pages.length
              final_offset := [] }) ∧
    (∀ (cols : List String) (rec : List FieldData), cols.Nodup →
      convert_record cols rec = cols.zip (rec.map extract_value)) ∧
    (∀ {α β : Type} (avail : List String) (name : String) (o1 : α) (o2 : β)
       (opts : List (String × String))
       (d : Nat → Except String DescribeResponse) (m : Nat)
       (resp : List (Except String ResultPage)),
      read_table avail name o1 opts d m resp =
        read_table avail name o2 opts d m resp) := by
  refine ⟨?_, fun cols rec hnd => convert_record_eq_zip cols hnd rec, ?_⟩
  case refine_2 =>
    intro α β avail name o1 o2 opts d m resp
    rfl
  intro α avail name o opts m pages hne hmem hm hdrop hlast
  obtain ⟨m', rfl⟩ : ∃ m', m = m' + 1 := ⟨m - 1, by omega⟩
  have hwait : wait_for_statement (fun _ => .ok ⟨"FINISHED", none⟩) (m' + 1) =
      .finished ⟨"FINISHED", none⟩ 1 := by
    rw [wait_for_statement, wait_go]
    rfl
  rw [read_table, if_neg (by simpa using hmem)]
  cases pages with
  | nil => exact absurd rfl hne
  | cons first rest =>
    have hgen := record_generator_complete first.ColumnMetadata (first :: rest)
      hne hdrop hlast
    simp only [List.map_cons] at hgen
    simp only [hwait, List.map_cons, List.head?_cons, List.head_cons, hgen]

/-- Witness for C8: a one-page read yields both records keyed by the metadata
column names (the third raw field dropped), with the built SQL and an empty
final offset, and two different start offsets give the identical result. -/
theorem read_table_snapshot_spec_witness :
    read_table ["public.users"] "public.users" (42 : Nat) []
        (fun _ => .ok ⟨"FINISHED", none⟩) 5
        ([read_table_witness_page].map .ok) =
      .ok { sql := "SELECT * FROM \x22public\x22.\x22users\x22",
            stream := .ok [[("id", .vlong 1), ("name", .vstring "x")],
                           [("id", .vlong 2)]] 1,
            final_offset := [] } ∧
    read_table ["public.users"] "public.users" (42 : Nat) []
        (fun _ => .ok ⟨"FINISHED", none⟩) 5 [.ok {}] =
      read_table ["public.users"] "public.users" (true : Bool) []
        (fun _ => .ok ⟨"FINISHED", none⟩) 5 [.ok {}] :=
  ⟨read_table_snapshot_spec.1 ["public.users"] "public.users" (42 : Nat) [] 5
      [read_table_witness_page]
      (by decide) (by decide) (by decide) (by decide) (by decide),
   read_table_snapshot_spec.2.2 ["public.users"] "public.users" (42 : Nat)
      (true : Bool) [] (fun _ => .ok ⟨"FINISHED", none⟩) 5 [.ok {}]⟩

end Redshift
